import Mathlib

set_option linter.unusedVariables false

/-!
Verification of the Neo Service Layer Python runtime
(`src/NeoServiceLayer.Enclave/Enclave/Execution/Python/runtime.py`).

The runtime builds a sandbox namespace holding `print`, `params` and a
`neo_service` capability bundle (storage / secrets / blockchain /
price_feed / events), executes guest source in a fresh module, resolves
an entry point and calls it with `params`.

Shallow embedding conventions:
* Python values are `PyValue`; Python dicts are association lists with
  Python `dict` semantics (`alistGet` = `d.get`, `alistUpdate` =
  `d.update({k: v})`, `alistRemove` = the removal done by `d.pop`).
* A capability lambda that mutates the context dict it closes over
  becomes a state-passing function returning the updated context.
* A Python expression that can raise becomes `Except String _`; the
  error string stands for the exception.
-/

/-- Python values as they cross the runtime's boundaries (the JSON
interchange subset plus `None`).  Floats are modelled as rationals;
the runtime's only float literals (`100.0`, `101.0`, `102.0`) are exact. -/
inductive PyValue where
  | none
  | bool (b : Bool)
  | int (n : Int)
  | float (q : Rat)
  | str (s : String)
  | list (xs : List PyValue)
  | dict (entries : List (String × PyValue))

/-- A Python `dict` with string keys, as an association list. -/
abbrev Dict := List (String × PyValue)

/-- `d.get(k)` on a Python dict: first binding of `k`, if any. -/
def alistGet {α : Type} : List (String × α) → String → Option α
  | [], _ => Option.none
  | (k', v') :: rest, k => if k' == k then some v' else alistGet rest k

/-- `d.update({k: v})`: replace the binding of `k` in place, or append. -/
def alistUpdate {α : Type} : List (String × α) → String → α → List (String × α)
  | [], k, v => [(k, v)]
  | (k', v') :: rest, k, v =>
      if k' == k then (k, v) :: rest else (k', v') :: alistUpdate rest k v

/-- The removal performed by `d.pop(k, default)`: drop the binding of `k`. -/
def alistRemove {α : Type} : List (String × α) → String → List (String × α)
  | [], _ => []
  | (k', v') :: rest, k => if k' == k then rest else (k', v') :: alistRemove rest k

/-- `d.get(k)` as seen by Python callers: absent keys read as `None`. -/
def pyGet (d : Dict) (k : String) : PyValue :=
  (alistGet d k).getD PyValue.none

/-- Python `x is not None`. -/
def pyIsNotNone : PyValue → Bool
  | PyValue.none => false
  | _ => true

/-- Python truthiness of a value (as used by `params or {}`). -/
def pyTruthy : PyValue → Bool
  | PyValue.none => false
  | PyValue.bool b => b
  | PyValue.int n => n != 0
  | PyValue.float q => if q = 0 then false else true
  | PyValue.str s => s != ""
  | PyValue.list xs => !xs.isEmpty
  | PyValue.dict d => !d.isEmpty

/-- Python `a or b`: `a` when truthy, else `b`. -/
def pyOr (a b : PyValue) : PyValue :=
  if pyTruthy a then a else b

/-! ### The capability lambdas of `create_sandbox`

Each lambda closes over the mutable `context` dict; here `context`
is passed explicitly, and a mutating operation returns the updated
context next to its Python return value. -/

/-- `lambda key: context.get("storage", {}).get(key)` (runtime.py:17).
If `context["storage"]` is bound to a non-dict, `.get` raises
`AttributeError`, modelled as `Except.error`. -/
def storage_get (context : Dict) (key : String) : Except String PyValue :=
  match alistGet context "storage" with
  | Option.none => Except.ok PyValue.none
  | some (PyValue.dict s) => Except.ok (pyGet s key)
  | some _ => Except.error "AttributeError: object has no attribute get"

/-- `lambda key, value: context.get("storage", {}).update({key: value}) or True`
(runtime.py:18).  When `"storage"` is absent the update hits a fresh dict
that is discarded; `dict.update` returns `None`, so the lambda returns
`True` in every non-raising case. -/
def storage_set (context : Dict) (key : String) (value : PyValue) :
    Except String (Bool × Dict) :=
  match alistGet context "storage" with
  | Option.none => Except.ok (true, context)
  | some (PyValue.dict s) =>
      Except.ok (true, alistUpdate context "storage" (PyValue.dict (alistUpdate s key value)))
  | some _ => Except.error "AttributeError: object has no attribute update"

/-- `lambda key: context.get("storage", {}).pop(key, None) is not None`
(runtime.py:19).  `pop` yields the stored value, or `None` when the key
is absent — and also `None` when the stored value itself is `None`. -/
def storage_delete (context : Dict) (key : String) :
    Except String (Bool × Dict) :=
  match alistGet context "storage" with
  | Option.none => Except.ok (false, context)
  | some (PyValue.dict s) =>
      Except.ok (pyIsNotNone (pyGet s key),
        alistUpdate context "storage" (PyValue.dict (alistRemove s key)))
  | some _ => Except.error "AttributeError: object has no attribute pop"

/-- `lambda secret_name: context.get("secrets", {}).get(secret_name)`
(runtime.py:23). -/
def secrets_get (context : Dict) (secret_name : String) : Except String PyValue :=
  match alistGet context "secrets" with
  | Option.none => Except.ok PyValue.none
  | some (PyValue.dict s) => Except.ok (pyGet s secret_name)
  | some _ => Except.error "AttributeError: object has no attribute get"

/-- `lambda script_hash, operation, args: {"result": "simulated-result"}`. -/
def blockchain_invoke_read (script_hash operation args : PyValue) : PyValue :=
  PyValue.dict [("result", PyValue.str "simulated-result")]

/-- `lambda script_hash, operation, args: "simulated-tx-hash"`. -/
def blockchain_invoke_write (script_hash operation args : PyValue) : PyValue :=
  PyValue.str "simulated-tx-hash"

/-- `lambda symbol, base_currency="USD": {"price": 100.0, "timestamp": 1625097600000}`. -/
def price_feed_get_price (symbol base_currency : PyValue) : PyValue :=
  PyValue.dict [("price", PyValue.float 100), ("timestamp", PyValue.int 1625097600000)]

/-- The fixed history list of runtime.py:34-37. -/
def price_feed_get_price_history (symbol base_currency period : PyValue) : PyValue :=
  PyValue.list
    [ PyValue.dict [("price", PyValue.float 100),
        ("timestamp", PyValue.int (1625097600000 - 3600000))],
      PyValue.dict [("price", PyValue.float 101),
        ("timestamp", PyValue.int (1625097600000 - 1800000))],
      PyValue.dict [("price", PyValue.float 102),
        ("timestamp", PyValue.int 1625097600000)] ]

/-- `lambda contract_hash, event_name, callback_function: "simulated-subscription-id"`. -/
def events_register (contract_hash event_name callback_function : PyValue) : PyValue :=
  PyValue.str "simulated-subscription-id"

/-- `lambda subscription_id: True`. -/
def events_unregister (subscription_id : PyValue) : PyValue :=
  PyValue.bool true

/-! ### The capability bundle

The nested dict literal of `create_sandbox` (runtime.py:14-45): one
structure per capability group, with exactly the keys of the source
dict as fields.  In particular the `secrets` group has the single
key `"get"`. -/

structure StorageAPI where
  get : String → Except String PyValue
  set : String → PyValue → Except String (Bool × Dict)
  delete : String → Except String (Bool × Dict)

structure SecretsAPI where
  get : String → Except String PyValue

structure BlockchainAPI where
  invoke_read : PyValue → PyValue → PyValue → PyValue
  invoke_write : PyValue → PyValue → PyValue → PyValue

structure PriceFeedAPI where
  get_price : PyValue → PyValue → PyValue
  get_price_history : PyValue → PyValue → PyValue → PyValue

structure EventsAPI where
  register : PyValue → PyValue → PyValue → PyValue
  unregister : PyValue → PyValue

structure NeoService where
  storage : StorageAPI
  secrets : SecretsAPI
  blockchain : BlockchainAPI
  price_feed : PriceFeedAPI
  events : EventsAPI

/-- The `neo_service` value of the sandbox: every group's operations
close over the one `context` of the invocation. -/
def neo_service (context : Dict) : NeoService :=
  ⟨⟨storage_get context, storage_set context, storage_delete context⟩,
   ⟨secrets_get context⟩,
   ⟨blockchain_invoke_read, blockchain_invoke_write⟩,
   ⟨price_feed_get_price, price_feed_get_price_history⟩,
   ⟨events_register, events_unregister⟩⟩

/-! ### The execution engine (`execute_function`, runtime.py:50-75)

The module namespace maps attribute names to values; a value is either
a plain Python value, a Python function (which `callable` accepts),
the builtin `print`, or the `neo_service` bundle dict.  `exec` of the
guest source over the namespace is modelled by an arbitrary function
from the initial namespace to a final namespace or a raised error. -/

/-- A value bound in the module namespace. -/
inductive GuestAttr where
  | val (v : PyValue)
  | fn (f : PyValue → Except String PyValue)
  | builtinPrint
  | neoService (context : Dict)

/-- The module `__dict__`: attribute name to bound value. -/
abbrev GuestNamespace := List (String × GuestAttr)

/-- Python `callable(x)`: functions and `print` are callable; plain
values and the `neo_service` dict are not. -/
def GuestAttr.callable : GuestAttr → Bool
  | GuestAttr.fn _ => true
  | GuestAttr.builtinPrint => true
  | GuestAttr.neoService _ => false
  | GuestAttr.val _ => false

/-- Calling a namespace attribute with one argument.
`print(x)` returns `None`. -/
def GuestAttr.call : GuestAttr → PyValue → Except String PyValue
  | GuestAttr.fn f, p => f p
  | GuestAttr.builtinPrint, _ => Except.ok PyValue.none
  | _, _ => Except.error "TypeError: object is not callable"

/-- The sandbox dict of `create_sandbox` (runtime.py:11-47), as the
initial module namespace: `print`, `params` (bound to `params or {}`)
and the `neo_service` bundle closing over `context`. -/
def create_sandbox (function_code : String) (params : PyValue) (context : Dict) :
    GuestNamespace :=
  [ ("print", GuestAttr.builtinPrint),
    ("params", GuestAttr.val (pyOr params (PyValue.dict []))),
    ("neo_service", GuestAttr.neoService context) ]

/-- Guest source code: the text together with the effect of
`exec`-ing it over the initial module namespace — it may define
attributes, rebind sandbox names, or raise at load time. -/
structure GuestCode where
  source : String
  load : GuestNamespace → Except String GuestNamespace

/-- The outcome of `execute_function` at its caller: either the entry
point's return value, or an exception propagating out of the engine
(the `raise e` of runtime.py:75 after logging the traceback). -/
inductive ExecOutcome where
  | ok (result : PyValue)
  | raised (msg : String)

/-- The message of the exception raised at runtime.py:67. -/
def entryPointMsg (entry_point : String) : String :=
  "Entry point " ++ entry_point ++ " is not a function"

/-- Whether the outcome is an exception escaping to the caller. -/
def escapesException : ExecOutcome → Bool
  | ExecOutcome.raised _ => true
  | ExecOutcome.ok _ => false

/-- Lifting the entry point call's result to the engine outcome:
a raised error inside the call is caught, logged and re-raised. -/
def execOfCall : Except String PyValue → ExecOutcome
  | Except.ok r => ExecOutcome.ok r
  | Except.error e => ExecOutcome.raised e

/-- `execute_function(function_code, entry_point, params, context)`
(runtime.py:50-75): build the sandbox, seed the module with it, `exec`
the guest source, check `hasattr(module, entry_point)` and
`callable(...)`, then call the entry point with `params`.  The
enclosing `try/except` prints the error and traceback and re-raises,
so every error path ends in `ExecOutcome.raised`. -/
def execute_function (guest : GuestCode) (entry_point : String)
    (params : PyValue) (context : Dict) : ExecOutcome :=
  match guest.load (create_sandbox guest.source params context) with
  | Except.error e => ExecOutcome.raised e
  | Except.ok module =>
      match alistGet module entry_point with
      | Option.none => ExecOutcome.raised (entryPointMsg entry_point)
      | some a =>
          if a.callable then execOfCall (a.call params)
          else ExecOutcome.raised (entryPointMsg entry_point)

/-! ### The CLI wrapper (`main`, runtime.py:78-93) -/

/-- What `main` does after inspecting `sys.argv`: exit 1 on too few
arguments, otherwise proceed to the file read / JSON parse / execution
with the extracted argument strings (`context_json` defaulting to
the empty JSON object). -/
inductive CliOutcome where
  | exited (code : Nat)
  | proceed (function_file entry_point params_json context_json : String)

/-- The argument dispatch of `main`: `sys.argv` includes the program
name, so `len(sys.argv) < 4` means fewer than 3 user arguments. -/
def main_dispatch (argv : List String) : CliOutcome :=
  if argv.length < 4 then CliOutcome.exited 1
  else CliOutcome.proceed (argv.getD 1 "") (argv.getD 2 "") (argv.getD 3 "")
    (if 4 < argv.length then argv.getD 4 "" else "\x7b\x7d")

/-! ### Concrete guest programs used as witnesses and counterexamples -/

/-- Guest whose module-level code raises at load time. -/
def loadFailGuest : GuestCode :=
  ⟨"1/0", fun _ => Except.error "ZeroDivisionError: division by zero"⟩

/-- Guest source defining nothing: the namespace keeps only the sandbox. -/
def emptyGuest : GuestCode :=
  ⟨"", fun ns => Except.ok ns⟩

/-- Guest whose entry point raises while executing. -/
def raisingGuest : GuestCode :=
  ⟨"def run(params):\n    raise ValueError(\x22boom\x22)",
   fun ns => Except.ok (ns ++ [("run", GuestAttr.fn (fun _ => Except.error "ValueError: boom"))])⟩

/-- Guest whose entry point returns its argument unchanged. -/
def echoGuest : GuestCode :=
  ⟨"def echo(params):\n    return params",
   fun ns => Except.ok (ns ++ [("echo", GuestAttr.fn (fun p => Except.ok p))])⟩

/-- Guest binding the entry-point name to a non-callable value. -/
def nonCallableGuest : GuestCode :=
  ⟨"handler = 42",
   fun ns => Except.ok (ns ++ [("handler", GuestAttr.val (PyValue.int 42))])⟩

/-- The Context's storage mapping as the capability lambdas see it:
the bound dict when `"storage"` is bound to a dict, the fresh empty
dict when the key is absent, and undefined (`none`) when the key is
bound to a non-dict (every storage operation then raises). -/
def storageMapping (context : Dict) : Option Dict :=
  match alistGet context "storage" with
  | Option.none => some []
  | some (PyValue.dict s) => some s
  | some _ => Option.none

/-- Same reading for the Context's secret mapping. -/
def secretsMapping (context : Dict) : Option Dict :=
  match alistGet context "secrets" with
  | Option.none => some []
  | some (PyValue.dict s) => some s
  | some _ => Option.none

/-- The timestamp field of a price point (`0` for malformed points;
every point the stub returns carries an integer timestamp). -/
def pointTimestamp : PyValue → Int
  | PyValue.dict d =>
      match alistGet d "timestamp" with
      | some (PyValue.int t) => t
      | _ => 0
  | _ => 0

/-- A price-history result is ordered oldest-to-newest: it is a list
whose successive points have nondecreasing timestamps. -/
def orderedOldestToNewest : PyValue → Prop
  | PyValue.list pts =>
      List.Chain' (fun a b => pointTimestamp a ≤ pointTimestamp b) pts
  | _ => False

/-! ### Association-list lemmas -/

theorem alistGet_update_self {α : Type} (d : List (String × α)) (k : String) (v : α) :
    alistGet (alistUpdate d k v) k = some v := by
  induction d with
  | nil => simp [alistUpdate, alistGet]
  | cons hd tl ih =>
      obtain ⟨k', v'⟩ := hd
      by_cases h : k' == k
      · simp [alistUpdate, h, alistGet]
      · simp [alistUpdate, h, alistGet, ih]

theorem alistGet_update_ne {α : Type} (d : List (String × α)) (k k' : String) (v : α)
    (h : k' ≠ k) :
    alistGet (alistUpdate d k v) k' = alistGet d k' := by
  induction d with
  | nil => simp [alistUpdate, alistGet, h, Ne.symm h]
  | cons hd tl ih =>
      obtain ⟨k₀, v₀⟩ := hd
      by_cases h₀ : k₀ == k
      · have hk : k₀ = k := by simpa using h₀
        subst hk
        simp [alistUpdate, alistGet, h, Ne.symm h]
      · simp [alistUpdate, h₀, alistGet, ih]

/-- A successful `storage.set` only touches the `"storage"` binding of
the context: every other top-level context key reads unchanged. -/
theorem storage_set_preserves_other (ctx : Dict) (k : String) (v : PyValue)
    (k' : String) (hk : k' ≠ "storage") (b : Bool) (ctx' : Dict)
    (h : storage_set ctx k v = Except.ok (b, ctx')) :
    alistGet ctx' k' = alistGet ctx k' := by
  cases hst : alistGet ctx "storage" with
  | none =>
      simp only [storage_set, hst, Except.ok.injEq, Prod.mk.injEq] at h
      rw [← h.2]
  | some w =>
      cases w with
      | dict s =>
          simp only [storage_set, hst, Except.ok.injEq, Prod.mk.injEq] at h
          rw [← h.2, alistGet_update_ne _ _ _ _ hk]
      | none => simp [storage_set, hst] at h
      | bool b' => simp [storage_set, hst] at h
      | int n => simp [storage_set, hst] at h
      | float q => simp [storage_set, hst] at h
      | str s => simp [storage_set, hst] at h
      | list xs => simp [storage_set, hst] at h

/-- A successful `storage.delete` only touches the `"storage"` binding
of the context. -/
theorem storage_delete_preserves_other (ctx : Dict) (k : String)
    (k' : String) (hk : k' ≠ "storage") (b : Bool) (ctx' : Dict)
    (h : storage_delete ctx k = Except.ok (b, ctx')) :
    alistGet ctx' k' = alistGet ctx k' := by
  cases hst : alistGet ctx "storage" with
  | none =>
      simp only [storage_delete, hst, Except.ok.injEq, Prod.mk.injEq] at h
      rw [← h.2]
  | some w =>
      cases w with
      | dict s =>
          simp only [storage_delete, hst, Except.ok.injEq, Prod.mk.injEq] at h
          rw [← h.2, alistGet_update_ne _ _ _ _ hk]
      | none => simp [storage_delete, hst] at h
      | bool b' => simp [storage_delete, hst] at h
      | int n => simp [storage_delete, hst] at h
      | float q => simp [storage_delete, hst] at h
      | str s => simp [storage_delete, hst] at h
      | list xs => simp [storage_delete, hst] at h

/-! ### Claim theorems -/

/-- C2: for every valid Context (its `"storage"` key bound to a
mapping), `Storage.set(k, v)` followed by `Storage.get(k)` within the
same invocation returns `v` — the set reports success and the get on
the updated context yields the written value. -/
theorem storage_set_then_get (ctx : Dict) (k : String) (v : PyValue) (s : Dict)
    (h : alistGet ctx "storage" = some (PyValue.dict s)) :
    ∃ ctx', storage_set ctx k v = Except.ok (true, ctx')
      ∧ storage_get ctx' k = Except.ok v := by
  refine ⟨alistUpdate ctx "storage" (PyValue.dict (alistUpdate s k v)), ?_, ?_⟩
  · simp [storage_set, h]
  · simp [storage_get, alistGet_update_self, pyGet]

theorem storage_set_then_get_witness :
    ∃ ctx', storage_set [("storage", PyValue.dict [])] "k" (PyValue.int 7)
        = Except.ok (true, ctx')
      ∧ storage_get ctx' "k" = Except.ok (PyValue.int 7) :=
  storage_set_then_get [("storage", PyValue.dict [])] "k" (PyValue.int 7) [] rfl

/-- C5 counterexample: in a context whose storage maps `"k"` to null,
a value exists for `"k"` and `delete` removes it, yet `delete` returns
`false` — `pop(key, None) is not None` cannot distinguish a stored
`None` from an absent key. -/
theorem storage_delete_null_cex :
    alistGet [("k", PyValue.none)] "k" = some PyValue.none
    ∧ storage_delete [("storage", PyValue.dict [("k", PyValue.none)])] "k"
        = Except.ok (false, [("storage", PyValue.dict [])]) :=
  ⟨rfl, rfl⟩

/-- C5 amended: `delete(k)` removes any existing entry for `k`, and
returns `true` iff a value existed for `k` that was not null; for a
stored null the entry is removed but `delete` reports `false`. -/
theorem storage_delete_spec (ctx : Dict) (k : String) (s : Dict)
    (h : alistGet ctx "storage" = some (PyValue.dict s)) :
    storage_delete ctx k
      = Except.ok (pyIsNotNone (pyGet s k),
          alistUpdate ctx "storage" (PyValue.dict (alistRemove s k)))
    ∧ (pyIsNotNone (pyGet s k) = true
        ↔ ∃ v, alistGet s k = some v ∧ v ≠ PyValue.none) := by
  constructor
  · simp [storage_delete, h]
  · cases hv : alistGet s k with
    | none => simp [pyGet, hv, pyIsNotNone]
    | some v => cases v <;> simp [pyGet, hv, pyIsNotNone]

theorem storage_delete_spec_witness :
    storage_delete [("storage", PyValue.dict [("a", PyValue.int 1)])] "a"
      = Except.ok (true, [("storage", PyValue.dict [])]) :=
  (storage_delete_spec [("storage", PyValue.dict [("a", PyValue.int 1)])] "a"
    [("a", PyValue.int 1)] rfl).1

/-- C7: for every key absent from the Context's storage mapping
(whether the `"storage"` key holds a mapping without `k`, or is absent
so the lambdas see a fresh empty dict), `Storage.get(k)` returns
absent (`None`) and `Storage.delete(k)` returns `false`. -/
theorem storage_get_delete_absent (ctx : Dict) (k : String) (s : Dict)
    (hs : storageMapping ctx = some s) (hk : alistGet s k = Option.none) :
    storage_get ctx k = Except.ok PyValue.none
    ∧ ∃ ctx', storage_delete ctx k = Except.ok (false, ctx') := by
  unfold storageMapping at hs
  cases hst : alistGet ctx "storage" with
  | none =>
      exact ⟨by simp [storage_get, hst], ctx, by simp [storage_delete, hst]⟩
  | some v =>
      rw [hst] at hs
      cases v <;> simp_all [storage_get, storage_delete, pyGet, pyIsNotNone]

theorem storage_get_delete_absent_witness :
    storage_get [("storage", PyValue.dict [("other", PyValue.int 1)])] "k"
        = Except.ok PyValue.none
    ∧ ∃ ctx', storage_delete [("storage", PyValue.dict [("other", PyValue.int 1)])] "k"
        = Except.ok (false, ctx') :=
  storage_get_delete_absent [("storage", PyValue.dict [("other", PyValue.int 1)])]
    "k" [("other", PyValue.int 1)] rfl rfl

/-- C9: when the context mapping has no `"storage"` key, every Storage
operation acts on a fresh discarded dict: `set` still reports success
(`True`) but leaves the context unchanged, `get` returns absent, and
`delete` returns `false`, also leaving the context unchanged. -/
theorem storage_ops_without_storage_key (ctx : Dict) (k : String) (v : PyValue)
    (h : alistGet ctx "storage" = Option.none) :
    storage_set ctx k v = Except.ok (true, ctx)
    ∧ storage_get ctx k = Except.ok PyValue.none
    ∧ storage_delete ctx k = Except.ok (false, ctx) := by
  refine ⟨?_, ?_, ?_⟩ <;> simp [storage_set, storage_get, storage_delete, h]

theorem storage_ops_without_storage_key_witness :
    storage_set [("secrets", PyValue.dict [])] "x" (PyValue.int 5)
        = Except.ok (true, [("secrets", PyValue.dict [])])
    ∧ storage_get [("secrets", PyValue.dict [])] "x" = Except.ok PyValue.none
    ∧ storage_delete [("secrets", PyValue.dict [])] "x"
        = Except.ok (false, [("secrets", PyValue.dict [])]) :=
  storage_ops_without_storage_key [("secrets", PyValue.dict [])] "x" (PyValue.int 5) rfl

/-- C6: the Secrets group of the capability bundle is exactly its
single `get` operation; `get` returns absent (`None`) for every name
not in the Context's secret mapping; and the only context-mutating
capability operations (`storage.set`, `storage.delete`) leave the
`"secrets"` binding of the context untouched. -/
theorem secrets_readonly (ctx : Dict) (s : Dict) (name : String)
    (hs : secretsMapping ctx = some s) (hn : alistGet s name = Option.none) :
    (neo_service ctx).secrets = SecretsAPI.mk (secrets_get ctx)
    ∧ (neo_service ctx).secrets.get name = Except.ok PyValue.none
    ∧ (∀ k v b ctx', storage_set ctx k v = Except.ok (b, ctx') →
        alistGet ctx' "secrets" = alistGet ctx "secrets")
    ∧ (∀ k b ctx', storage_delete ctx k = Except.ok (b, ctx') →
        alistGet ctx' "secrets" = alistGet ctx "secrets") := by
  refine ⟨rfl, ?_, ?_, ?_⟩
  · show secrets_get ctx name = Except.ok PyValue.none
    unfold secretsMapping at hs
    cases hsec : alistGet ctx "secrets" with
    | none => simp [secrets_get, hsec]
    | some v =>
        rw [hsec] at hs
        cases v <;> simp_all [secrets_get, pyGet]
  · intro k v b ctx' hset
    exact storage_set_preserves_other ctx k v "secrets" (by decide) b ctx' hset
  · intro k b ctx' hdel
    exact storage_delete_preserves_other ctx k "secrets" (by decide) b ctx' hdel

theorem secrets_readonly_witness :
    (neo_service [("secrets", PyValue.dict [("token", PyValue.str "s3")])]).secrets.get
        "absent" = Except.ok PyValue.none :=
  (secrets_readonly [("secrets", PyValue.dict [("token", PyValue.str "s3")])]
    [("token", PyValue.str "s3")] "absent" rfl rfl).2.1

/-- C8: for every `symbol`, `base_currency` and `period` argument,
`price_feed.get_price_history` returns a sequence of price points
whose timestamps are ordered oldest-to-newest. -/
theorem price_history_ordered (symbol base_currency period : PyValue) :
    orderedOldestToNewest (price_feed_get_price_history symbol base_currency period) := by
  unfold price_feed_get_price_history orderedOldestToNewest
  simp [List.chain'_cons, pointTimestamp, alistGet]

/-- C10: a command line supplying fewer than 3 arguments after the
program name (`function_file`, `entry_point`, `params_json`) makes
`main` call `sys.exit(1)`. -/
theorem cli_exits_one_on_few_args (prog : String) (args : List String)
    (h : args.length < 3) :
    main_dispatch (prog :: args) = CliOutcome.exited 1 := by
  have h4 : (prog :: args).length < 4 := by
    simp only [List.length_cons]
    omega
  unfold main_dispatch
  rw [if_pos h4]

theorem cli_exits_one_on_few_args_witness :
    main_dispatch ["runtime.py", "fn.py", "handler"] = CliOutcome.exited 1 :=
  cli_exits_one_on_few_args "runtime.py" ["fn.py", "handler"] (by decide)

/-- C1 counterexample: for a guest whose entry point raises,
`execute_function` does not return a structured Failure — the caught
exception is re-raised (runtime.py:75) and escapes to the caller. -/
theorem guest_error_escapes_cex :
    execute_function raisingGuest "run" PyValue.none []
        = ExecOutcome.raised "ValueError: boom"
    ∧ escapesException (execute_function raisingGuest "run" PyValue.none []) = true :=
  ⟨rfl, rfl⟩

/-- C1 amended: every guest error — at load time, at entry-point
resolution, or while the entry point executes — is caught at the
engine boundary, logged with its traceback, and then re-raised: the
exception propagates to `execute_function`'s caller with its original
message, and no structured Failure value is returned. -/
theorem execute_function_reraises (guest : GuestCode) (ep : String)
    (p : PyValue) (ctx : Dict) :
    (∀ e, guest.load (create_sandbox guest.source p ctx) = Except.error e →
        execute_function guest ep p ctx = ExecOutcome.raised e)
    ∧ (∀ module, guest.load (create_sandbox guest.source p ctx) = Except.ok module →
        alistGet module ep = Option.none →
        execute_function guest ep p ctx = ExecOutcome.raised (entryPointMsg ep))
    ∧ (∀ module f e, guest.load (create_sandbox guest.source p ctx) = Except.ok module →
        alistGet module ep = some (GuestAttr.fn f) → f p = Except.error e →
        execute_function guest ep p ctx = ExecOutcome.raised e) := by
  refine ⟨?_, ?_, ?_⟩
  · intro e he
    simp [execute_function, he]
  · intro module hm hep
    simp [execute_function, hm, hep]
  · intro module f e hm hep hf
    simp [execute_function, hm, hep, GuestAttr.callable, GuestAttr.call, execOfCall, hf]

theorem execute_function_reraises_witness :
    execute_function loadFailGuest "run" PyValue.none []
      = ExecOutcome.raised "ZeroDivisionError: division by zero" :=
  (execute_function_reraises loadFailGuest "run" PyValue.none []).1
    "ZeroDivisionError: division by zero" rfl

/-- C3 counterexample: with Params absent (`None`), the namespace
binds `params or {}` — the empty mapping — while the entry point is
called with the original `None` (the echo guest returns its argument,
which comes back as `None`): the two values diverge. -/
theorem params_binding_cex :
    alistGet (create_sandbox echoGuest.source PyValue.none []) "params"
      = some (GuestAttr.val (PyValue.dict []))
    ∧ execute_function echoGuest "echo" PyValue.none [] = ExecOutcome.ok PyValue.none
    ∧ PyValue.dict [] ≠ PyValue.none :=
  ⟨rfl, rfl, fun h => PyValue.noConfusion h⟩

/-- C3 amended: the entry point is always called with the original
Params value, and the namespace binds `params or {}`; the two agree
whenever Params is a mapping (including the empty mapping, up to
value equality), but when Params is absent (`None`) the namespace
binds an empty mapping while the call still receives `None`. -/
theorem params_namespace_vs_call (guest : GuestCode) (ep : String)
    (p : PyValue) (ctx : Dict) (module : GuestNamespace)
    (f : PyValue → Except String PyValue)
    (hload : guest.load (create_sandbox guest.source p ctx) = Except.ok module)
    (hep : alistGet module ep = some (GuestAttr.fn f)) :
    alistGet (create_sandbox guest.source p ctx) "params"
      = some (GuestAttr.val (pyOr p (PyValue.dict [])))
    ∧ execute_function guest ep p ctx = execOfCall (f p)
    ∧ (∀ d, p = PyValue.dict d → pyOr p (PyValue.dict []) = p)
    ∧ (p = PyValue.none → pyOr p (PyValue.dict []) = PyValue.dict []) := by
  refine ⟨rfl, ?_, ?_, ?_⟩
  · simp [execute_function, hload, hep, GuestAttr.callable, GuestAttr.call]
  · rintro d rfl
    cases d with
    | nil => rfl
    | cons hd tl => rfl
  · rintro rfl
    rfl

theorem params_namespace_vs_call_witness :
    alistGet (create_sandbox echoGuest.source (PyValue.dict [("x", PyValue.int 41)]) [])
        "params"
      = some (GuestAttr.val (pyOr (PyValue.dict [("x", PyValue.int 41)]) (PyValue.dict [])))
    ∧ execute_function echoGuest "echo" (PyValue.dict [("x", PyValue.int 41)]) []
      = execOfCall (Except.ok (PyValue.dict [("x", PyValue.int 41)])) := by
  have h := params_namespace_vs_call echoGuest "echo"
      (PyValue.dict [("x", PyValue.int 41)]) [] _ (fun p => Except.ok p) rfl rfl
  exact ⟨h.1, h.2.1⟩

/-- C4 counterexample: with entry point `missing_fn` absent from the
guest namespace, the engine raises
`Exception("Entry point missing_fn is not a function")` — the caught
exception is re-raised and escapes; no structured
`Failure(EntryPointError, ...)` value is produced. -/
theorem entry_point_failure_not_structured_cex :
    execute_function emptyGuest "missing_fn" PyValue.none []
      = ExecOutcome.raised (entryPointMsg "missing_fn")
    ∧ escapesException (execute_function emptyGuest "missing_fn" PyValue.none []) = true :=
  ⟨rfl, rfl⟩

/-- C4 amended: for every entry-point name that is missing from the
loaded guest namespace or bound to a non-invocable value, the engine
raises an exception with message
`Entry point <name> is not a function`, which propagates to the
caller of `execute_function` (after the boundary logs it). -/
theorem entry_point_missing_raises (guest : GuestCode) (ep : String)
    (p : PyValue) (ctx : Dict) (module : GuestNamespace)
    (hload : guest.load (create_sandbox guest.source p ctx) = Except.ok module)
    (hep : alistGet module ep = Option.none
        ∨ ∃ a, alistGet module ep = some a ∧ a.callable = false) :
    execute_function guest ep p ctx = ExecOutcome.raised (entryPointMsg ep) := by
  rcases hep with h | ⟨a, ha, hc⟩
  · simp [execute_function, hload, h]
  · simp [execute_function, hload, ha, hc]

theorem entry_point_missing_raises_witness :
    execute_function nonCallableGuest "handler" PyValue.none []
      = ExecOutcome.raised (entryPointMsg "handler") :=
  entry_point_missing_raises nonCallableGuest "handler" PyValue.none [] _ rfl
    (Or.inr ⟨GuestAttr.val (PyValue.int 42), rfl, rfl⟩)
